import Mathlib

/-!
Verification development for the watcher3-api-adapter service
(file watcher3-api-adapter.py).

The Python program is shallowly embedded as follows.

* JSON values are modelled by `JVal`; JSON numbers are carried as rationals
  (the program never inspects float representations, it only copies numbers
  through and converts integer ids with int()).
* Python exceptions that can escape to a caller are modelled by `PyExc`;
  a computation that can raise, call sys.exit, or return normally is a
  `PyResult`.
* The Watcher3 backend is modelled as an oracle `Source` mapping the
  (mode, query-string) pair of each HTTP GET issued by get_data to a
  transport outcome `FetchOutcome`: a connection error, an SSL error, or an
  HTTP response carrying the raw body text and, when the body is valid JSON,
  its parsed value.
* The filesystem calls (os.path.isfile, os.path.getsize, os.path.isdir,
  psutil.disk_usage(...).total) are modelled by an oracle `Fs`.
* Python str is modelled by Lean String; the embedded string operations
  (lower, split, rsplit, replace, join, in) are defined over `String.data`
  so that they mirror the Python semantics on the character list.
  str.lower() is modelled with Char.toLower (the labels and paths involved
  are ASCII).
* Python dicts built by the program are modelled as ordered association
  lists (`dictSet` updates in place or appends, like dict assignment;
  `dictGet` is lookup).  Bottle request/response plumbing: request.json is
  `Option JVal` (None for an empty request body, per bottle), and the value
  returned by a handler together with the last `response.status` assignment
  is a `Resp`.  `respond` returns the json.dumps serialization of its
  content, modelled symbolically as `RespVal.vdumped j` (a nonempty Python
  str whose JSON content is `j`).
-/

/-- A JSON value.  Numbers are rationals (see the file header). -/
inductive JVal where
  | jnull : JVal
  | jbool : Bool → JVal
  | jnum : ℚ → JVal
  | jstr : String → JVal
  | jarr : List JVal → JVal
  | jobj : List (String × JVal) → JVal

/-- Python exceptions that the embedded code can raise to its caller. -/
inductive PyExc where
  | typeError
  | keyError
  | valueError
  | attributeError
  deriving DecidableEq

/-- Outcome of running a piece of the Python program: normal return,
an uncaught exception, or sys.exit with the given code. -/
inductive PyResult (α : Type) where
  | ok : α → PyResult α
  | exc : PyExc → PyResult α
  | exit : Nat → PyResult α

/-- Exception/exit propagation (Python: an uncaught exception unwinds). -/
def PyResult.bind {α β : Type} : PyResult α → (α → PyResult β) → PyResult β
  | .ok a, f => f a
  | .exc e, _ => .exc e
  | .exit c, _ => .exit c

/-- Lift an `Except` (an expression that may raise) into `PyResult`. -/
def liftExc {α : Type} : Except PyExc α → PyResult α
  | .ok a => .ok a
  | .error e => .exc e

/-- Model of `try: k(x) except KeyError: onKey` around an expression `x`
that may raise: a KeyError is caught, any other exception propagates. -/
def tryKey {α β : Type} (x : Except PyExc α) (onKey : PyResult β)
    (k : α → PyResult β) : PyResult β :=
  match x with
  | .ok a => k a
  | .error .keyError => onKey
  | .error e => .exc e

/-- Transport outcome of one `requests` GET issued by
`WatcherHandler.get_data`. `http body parsed` is an HTTP response whose raw
text is `body`; `parsed` is its JSON value when `.json()` succeeds, `none`
when the body is not valid JSON (json.decoder.JSONDecodeError). -/
inductive FetchOutcome where
  | conn_error : FetchOutcome
  | ssl_error : FetchOutcome
  | http : String → Option JVal → FetchOutcome

/-- The Watcher3 backend as an oracle: `src mode get_vars` is the transport
outcome of the GET that `get_data mode get_vars` performs. -/
def Source : Type := String → String → FetchOutcome

/-- The filesystem oracle: os.path.isfile, os.path.getsize, os.path.isdir
and psutil.disk_usage(path).total. -/
structure Fs where
  isfile : String → Bool
  getsize : String → Nat
  isdir : String → Bool
  usageTotal : String → Nat

/-- Value returned by `WatcherHandler.get_data` on normal return: the parsed
JSON body, or the raw text when JSON parsing failed. -/
inductive GetDataVal where
  | json : JVal → GetDataVal
  | text : String → GetDataVal

/--
`WatcherHandler.get_data` (watcher3-api-adapter.py lines 120-158).

* SSL error: logs and sys.exit(1).
* Connection error: the code assigns the dict
  `data = ("response": False, "error": error)` intending to return it, but
  then unconditionally executes `data = data.json()`.  A dict has no
  attribute `json`, so this raises AttributeError, and the surrounding
  `except json.decoder.JSONDecodeError` clause does not catch it: the
  exception escapes to the caller and the failure envelope is never
  returned.
* HTTP response: `data.json()` parses the body; on JSONDecodeError the raw
  text `data.text` is returned instead.
-/
def get_data (src : Source) (mode : String) (get_vars : String) :
    PyResult GetDataVal :=
  match src mode get_vars with
  | .ssl_error => .exit 1
  | .conn_error => .exc .attributeError
  | .http body parsed =>
    match parsed with
    | some j => .ok (.json j)
    | none => .ok (.text body)

/-! ### Python string operations, over the character list -/

/-- Python str.split(sep) for a one-character separator: "a,,b" gives three
pieces, "" gives one empty piece. -/
def chSplit (c : Char) : List Char → List (List Char)
  | [] => [[]]
  | x :: xs =>
    let r := chSplit c xs
    if x = c then [] :: r
    else
      match r with
      | [] => [[x]]
      | h :: t => (x :: h) :: t

/-- Split at the first occurrence of `c`: `some (before, after)` when `c`
occurs, `none` otherwise.  Used for str.split(sep, 1) and, on the reversed
list, for str.rsplit(sep, 1). -/
def chSplitFirst (c : Char) : List Char → Option (List Char × List Char)
  | [] => none
  | x :: xs =>
    if x = c then some ([], xs)
    else (chSplitFirst c xs).map (fun p => (x :: p.1, p.2))

/-- sep.join(pieces). -/
def chIntercalate (sep : List Char) : List (List Char) → List Char
  | [] => []
  | [x] => x
  | x :: y :: t => x ++ sep ++ chIntercalate sep (y :: t)

/-- Does the list start with the given piece? -/
def chStarts : List Char → List Char → Bool
  | [], _ => true
  | _ :: _, [] => false
  | p :: ps, s :: ss => p = s && chStarts ps ss

/-- Is `n` a contiguous sublist of the second argument?  (Python `in` on
two strings.) -/
def chSub (n : List Char) : List Char → Bool
  | [] => chStarts n []
  | a :: rest => chStarts n (a :: rest) || chSub n rest

/-- Python str.lower(), on the ASCII strings the program handles. -/
def sLower (s : String) : String := String.mk (s.data.map Char.toLower)

/-- Python s.replace(c, ""): remove every occurrence of the character. -/
def chRemove (c : Char) (s : String) : String :=
  String.mk (s.data.filter (fun x => x ≠ c))

/-- `'/'.join(f.split('/')[:3])` (parse_liststatus line 322): the join of
the first three '/'-separated segments of a completed-file path. -/
def sJoinTake3 (s : String) : String :=
  String.mk (chIntercalate ['/'] ((chSplit '/' s.data).take 3))

/-- Python s.rsplit(c, 1)[0]: everything before the last occurrence of `c`,
or the whole string if `c` does not occur.  (WatcherHandler.__init__
line 118 applies this with '/' to the moverpath.) -/
def rsplitOnceHead (c : Char) (s : String) : String :=
  match chSplitFirst c s.data.reverse with
  | none => s
  | some p => String.mk p.2.reverse

/-- ASCII whitespace, as stripped by Python int(). -/
def chWs (c : Char) : Bool := c = ' ' ∨ c = '\t' ∨ c = '\n' ∨ c = '\r'

/-- Numeric value of a nonempty digit list. -/
def chDigitsVal (l : List Char) : Nat :=
  l.foldl (fun a c => a * 10 + (c.toNat - 48)) 0

/-- Python int(s) on a string: optional surrounding whitespace, an optional
sign, then one or more decimal digits; anything else raises ValueError
(`none`).  (Underscore digit grouping is not modelled; no input in scope
uses it.) -/
def pyInt? (s : String) : Option Int :=
  let t := (((s.data.dropWhile chWs).reverse).dropWhile chWs).reverse
  let neg : Bool := match t with
    | '-' :: _ => true
    | _ => false
  let core := match t with
    | '-' :: r => r
    | '+' :: r => r
    | r => r
  if core ≠ [] ∧ core.all (fun c => c.isDigit) then
    some (if neg then -(chDigitsVal core : Int) else (chDigitsVal core : Int))
  else none

/-- Python `needle in hay` on two strings: substring containment. -/
def pyInStr (needle hay : String) : Bool := chSub needle.data hay.data

/-- Python str(x) for the JSON scalars the program converts
(add_movie applies str() to the tmdbId taken from the request body).
Containers are never passed to str() on any path a claim touches; a fixed
placeholder stands in for their repr. -/
def pyStr : JVal → String
  | .jstr s => s
  | .jnum q => if q.den = 1 then toString q.num else toString q
  | .jbool b => if b then "True" else "False"
  | .jnull => "None"
  | .jarr _ => "<list-repr-unmodelled>"
  | .jobj _ => "<dict-repr-unmodelled>"

/-! ### Python dicts as ordered association lists -/

/-- Dict lookup. -/
def dictGet : List (String × JVal) → String → Option JVal
  | [], _ => none
  | (k, v) :: rest, key => if k = key then some v else dictGet rest key

/-- Dict assignment `d[key] = val`: update in place when the key exists,
append otherwise (insertion order is preserved, as in Python 3.7+). -/
def dictSet : List (String × JVal) → String → JVal → List (String × JVal)
  | [], key, val => [(key, val)]
  | (k, v) :: rest, key, val =>
    if k = key then (k, val) :: rest else (k, v) :: dictSet rest key val

/-- Python `d[key]` on a JSON value: dicts look the key up (KeyError when
missing); subscripting any other JSON value with a string key raises
TypeError. -/
def jGet (j : JVal) (key : String) : Except PyExc JVal :=
  match j with
  | .jobj kvs =>
    match dictGet kvs key with
    | some v => .ok v
    | none => .error .keyError
  | _ => .error .typeError

/-- Python truthiness of a JSON value. -/
def jTruthy : JVal → Bool
  | .jnull => false
  | .jbool b => b
  | .jnum q => decide (q ≠ 0)
  | .jstr s => decide (s ≠ "")
  | .jarr xs => !xs.isEmpty
  | .jobj kvs => !kvs.isEmpty

/-- Python iteration `for x in v` over a JSON value: lists yield their
elements, dicts their keys, strings their one-character substrings;
iterating a number/bool/None raises TypeError. -/
def pyIter : JVal → Except PyExc (List JVal)
  | .jarr xs => .ok xs
  | .jobj kvs => .ok (kvs.map (fun kv => .jstr kv.1))
  | .jstr s => .ok (s.data.map (fun ch => .jstr (String.mk [ch])))
  | _ => .error .typeError

/-- Subscript the value returned by get_data with a string key: when
get_data returned raw text (a Python str), `text[key]` raises TypeError. -/
def gdSubscript (gv : GetDataVal) (key : String) : Except PyExc JVal :=
  match gv with
  | .text _ => .error .typeError
  | .json j => jGet j key

/-- The value returned by get_data, as the JSON value it would be appended
as (MovieList appends the raw liststatus result on KeyError; on that branch
the value is always a parsed JSON dict). -/
def gdVal : GetDataVal → JVal
  | .json j => j
  | .text s => .jstr s

/-! ### MovieDict.parse_liststatus (lines 282-362) -/

/-- One Watcher3 liststatus record, with the fields parse_liststatus reads.
Fields the code uses as strings are modelled as strings (a null value for a
nullable field such as finished_file, media_release_date, release_date,
rated or alternative_titles is modelled by "", which has the same Python
truthiness); score is a JSON number, so float() on it is the identity. -/
structure ListStatus where
  tmdbid : String
  imdbid : String
  title : String
  sort_title : String
  plot : String
  score : ℚ
  added_date : String
  finished_file : String
  year : String
  media_release_date : String
  release_date : String
  rated : String
  alternative_titles : String

/-- Convert a JSON movie record from the liststatus payload into the typed
`ListStatus` view: KeyError when a field is missing, TypeError when a field
does not have the shape the code consumes it with. -/
def toListStatus (j : JVal) : Except PyExc ListStatus := do
  let asStr : JVal → Except PyExc String := fun v =>
    match v with
    | .jstr s => .ok s
    | _ => .error .typeError
  let tmdbid ← jGet j "tmdbid" >>= asStr
  let imdbid ← jGet j "imdbid" >>= asStr
  let title ← jGet j "title" >>= asStr
  let sort_title ← jGet j "sort_title" >>= asStr
  let plot ← jGet j "plot" >>= asStr
  let score ←
    match ← jGet j "score" with
    | .jnum q => Except.ok q
    | _ => Except.error .typeError
  let added_date ← jGet j "added_date" >>= asStr
  let finished_file ← jGet j "finished_file" >>= asStr
  let year ← jGet j "year" >>= asStr
  let mrd ← jGet j "media_release_date" >>= asStr
  let rd ← jGet j "release_date" >>= asStr
  let rated ← jGet j "rated" >>= asStr
  let alt ← jGet j "alternative_titles" >>= asStr
  .ok ⟨tmdbid, imdbid, title, sort_title, plot, score, added_date,
       finished_file, year, mrd, rd, rated, alt⟩

/-- The data_map dict literal of parse_liststatus (lines 290-311), in its
insertion order; `tm` is int(liststatus['tmdbid']). -/
def plData (ls : ListStatus) (tm : Int) : List (String × JVal) :=
  [("tmdbId", .jnum tm),
   ("imdbId", .jstr ls.imdbid),
   ("title", .jstr ls.title),
   ("originalTitle", .jstr ls.title),
   ("sortTitle", .jstr (sLower ls.sort_title)),
   ("sizeOnDisk", .jnum 0),
   ("overview", .jstr ls.plot),
   ("images", .jarr []),
   ("website", .jstr ""),
   ("year", .jstr ""),
   ("youTubeTrailerId", .jstr ""),
   ("studio", .jstr ""),
   ("cleanTitle", .jstr (sLower (chRemove ' ' ls.title))),
   ("titleSlug", .jstr ls.tmdbid),
   ("added", .jstr (ls.added_date ++ "T00:00:00Z")),
   ("ratings", .jobj [("votes", .jnum 0), ("value", .jnum ls.score)]),
   ("id", .jnum tm)].foldl (fun acc kv => dictSet acc kv.1 kv.2) []

/-- The `if liststatus['finished_file']:` block (lines 316-323): sizeOnDisk
from the file size when the file exists, then path and folderName. -/
def plFin (fsys : Fs) (ls : ListStatus) (d0 : List (String × JVal)) :
    List (String × JVal) :=
  let d := if fsys.isfile ls.finished_file then
      dictSet d0 "sizeOnDisk" (.jnum (fsys.getsize ls.finished_file))
    else d0
  let d := dictSet d "path" (.jstr (sJoinTake3 ls.finished_file))
  dictSet d "folderName" ((dictGet d "path").getD .jnull)

/-- The listing-derived alternate-titles list (lines 346-362): the comma
split of the alternative_titles string, with sequential ids starting at 2
(title_count starts at 1 and is incremented at the top of the loop). -/
def altTitles (tm : Int) (ls : ListStatus) : List JVal :=
  ((chSplit ',' ls.alternative_titles.data).enum).map (fun p =>
    .jobj [("sourceType", .jstr "tmdb"),
           ("movieId", .jnum tm),
           ("title", .jstr (String.mk p.2)),
           ("sourceId", .jnum tm),
           ("votes", .jnum 0),
           ("voteCount", .jnum 0),
           ("language", .jobj [("id", .jnum 1), ("name", .jstr "English")]),
           ("id", .jnum ((p.1 : ℚ) + 2))])

/-- The tail of parse_liststatus after the finished_file block
(lines 325-362): year (ValueError on int() is caught and yields ""), the
three conditional date/certification fields, and alternateTitles. -/
def plRest (ls : ListStatus) (tm : Int) (d0 : List (String × JVal)) :
    List (String × JVal) :=
  let d := dictSet d0 "year"
    (match pyInt? ls.year with
     | some y => .jnum y
     | none => .jstr "")
  let d := if ls.media_release_date = "" then d
    else dictSet d "physicalRelease"
      (.jstr (ls.media_release_date ++ "T00:00:00Z"))
  let d := if ls.release_date = "" then d
    else dictSet d "inCinemas" (.jstr (ls.release_date ++ "T00:00:00Z"))
  let d := if ls.rated = "" then d
    else dictSet d "certification" (.jstr ls.rated)
  let d := dictSet d "alternateTitles" (.jarr [])
  if ls.alternative_titles = "" then d
  else dictSet d "alternateTitles" (.jarr (altTitles tm ls))

/-- MovieDict.parse_liststatus (lines 282-362): rewrite a Watcher3
liststatus record in Radarr format.  `none` models the uncaught ValueError
that int(liststatus['tmdbid']) raises on a non-numeric id. -/
def parse_liststatus (fsys : Fs) (ls : ListStatus) :
    Option (List (String × JVal)) :=
  match pyInt? ls.tmdbid with
  | none => none
  | some tm =>
    let d := plData ls tm
    let d := if ls.finished_file = "" then d else plFin fsys ls d
    some (plRest ls tm d)

/-! ### MovieDict.parse_movie_metadata (lines 364-475)

No claim observes the enriched fields; the embedding is still kept faithful
to the source.  Field extraction from the metadata JSON is hoisted into
`toMetadata`: a KeyError anywhere during enrichment is caught by the
`except KeyError: pass` in MovieDict.__init__ (lines 275-280), and the
partially-updated dict such a mid-parse KeyError would leave behind in
Python is not distinguished from the unenriched dict, as no claim observes
either. -/

/-- One entry of a release_dates result list: its type code and the raw
release_date / certification values the code copies through. -/
structure ReleaseDate where
  rtype : ℚ
  release_date : JVal
  certification : JVal

/-- The movie_metadata tmdb_data payload, with the fields
parse_movie_metadata reads.  Values the code copies through untouched stay
raw (`JVal`); values it calls string methods on, concatenates, or compares
with strings are strings, with "" for a null poster/backdrop path (same
truthiness). -/
structure Metadata where
  status : String
  homepage : JVal
  runtime : JVal
  vote_count : JVal
  vote_average : JVal
  companies : List JVal
  countries : List String
  releaseResults : List (String × List ReleaseDate)
  poster_path : String
  backdrop_path : String
  genres : List JVal
  altTitleVals : List JVal
  tmdb_id : JVal

/-- MovieDict.parse_release_dates (lines 449-475): pick out the type-coded
entries of one country's release-date list; a missing type is simply
skipped (IndexError on [0] of an empty filter result is caught). -/
def parse_release_dates (d0 : List (String × JVal))
    (rds : List ReleaseDate) : List (String × JVal) :=
  let d := match (rds.filter (fun x => x.rtype = 3)).head? with
    | some cr =>
      dictSet (dictSet d0 "inCinemas" cr.release_date)
        "certification" cr.certification
    | none => d0
  let d := match (rds.filter (fun x => x.rtype = 5)).head? with
    | some pr => dictSet d "physicalRelease" pr.release_date
    | none => d
  match (rds.filter (fun x => x.rtype = 4)).head? with
  | some dr => dictSet d "digitalRelease" dr.release_date
  | none => d

/-- An images entry (lines 410-423). -/
def imgObj (cover : String) (path : String) : JVal :=
  .jobj [("coverType", .jstr cover),
         ("remoteURL", .jstr ("https://image.tmdb.org/t/p/original" ++ path))]

/-- The metadata-derived alternate-titles list (lines 430-447): sequential
ids starting at 2, movieId/sourceId from the metadata id. -/
def metaAltList (m : Metadata) : List JVal :=
  (m.altTitleVals.enum).map (fun p =>
    .jobj [("sourceType", .jstr "tmdb"),
           ("movieId", m.tmdb_id),
           ("title", p.2),
           ("sourceId", m.tmdb_id),
           ("votes", .jnum 0),
           ("voteCount", .jnum 0),
           ("language", .jobj [("id", .jnum 1), ("name", .jstr "English")]),
           ("id", .jnum ((p.1 : ℚ) + 2))])

/-- MovieDict.parse_movie_metadata (lines 364-447): enrich the dict built
from the listing with fields from the per-title metadata.  When there is no
production country, local_country is False and the release-dates filter can
match no string country code, so the IndexError path is taken and no
country-scoped dates are emitted. -/
def parse_movie_metadata (d0 : List (String × JVal)) (m : Metadata) :
    List (String × JVal) :=
  let d := dictSet d0 "status" (.jstr (sLower m.status))
  let d := dictSet d "website" m.homepage
  let d := dictSet d "runtime" m.runtime
  let d := dictSet d "ratings"
    (.jobj [("votes", m.vote_count), ("value", m.vote_average)])
  let d := match m.companies.head? with
    | some n => dictSet d "studio" n
    | none => d
  let d := match m.countries.head? with
    | none => d
    | some c =>
      match (m.releaseResults.filter (fun p => p.1 = c)).head? with
      | none => d
      | some p => parse_release_dates d p.2
  let d := dictSet d "images" (.jarr
    ((if m.poster_path ≠ "" then [imgObj "poster" m.poster_path] else []) ++
     (if m.backdrop_path ≠ "" then [imgObj "fanart" m.backdrop_path]
      else [])))
  let d := dictSet d "genres" (.jarr m.genres)
  dictSet d "alternateTitles" (.jarr (metaAltList m))

/-- Typed view of the tmdb_data JSON: KeyError when a field the enrichment
reads is missing (caught by the caller's `except KeyError: pass`),
TypeError when a field does not have the shape the code consumes it
with. -/
def toMetadata (j : JVal) : Except PyExc Metadata := do
  let asStr : JVal → Except PyExc String := fun v =>
    match v with
    | .jstr s => .ok s
    | .jnull => .ok ""
    | _ => .error .typeError
  let asArr : JVal → Except PyExc (List JVal) := fun v =>
    match v with
    | .jarr xs => .ok xs
    | _ => .error .typeError
  let status ← jGet j "status" >>= asStr
  let homepage ← jGet j "homepage"
  let runtime ← jGet j "runtime"
  let vote_count ← jGet j "vote_count"
  let vote_average ← jGet j "vote_average"
  let companiesRaw ← jGet j "production_companies" >>= asArr
  let companies ← companiesRaw.mapM (fun x => jGet x "name")
  let countriesRaw ← jGet j "production_countries" >>= asArr
  let countries ← countriesRaw.mapM (fun x => jGet x "iso_3166_1" >>= asStr)
  let rdResultsRaw ← (jGet j "release_dates" >>= (jGet · "results")) >>= asArr
  let releaseResults ← rdResultsRaw.mapM (fun x => do
    let iso ← jGet x "iso_3166_1" >>= asStr
    let rdsRaw ← jGet x "release_dates" >>= asArr
    let rds ← rdsRaw.mapM (fun rd => do
      let t ←
        match ← jGet rd "type" with
        | .jnum q => Except.ok q
        | _ => Except.error .typeError
      let date ← jGet rd "release_date"
      let cert ← jGet rd "certification"
      Except.ok (⟨t, date, cert⟩ : ReleaseDate))
    Except.ok (iso, rds))
  let poster ← jGet j "poster_path" >>= asStr
  let backdrop ← jGet j "backdrop_path" >>= asStr
  let genresRaw ← jGet j "genres" >>= asArr
  let genres ← genresRaw.mapM (fun g => jGet g "name")
  let altsRaw ← (jGet j "alternative_titles" >>= (jGet · "titles")) >>= asArr
  let alts ← altsRaw.mapM (fun t => jGet t "title")
  let tmdb_id ← jGet j "id"
  .ok ⟨status, homepage, runtime, vote_count, vote_average, companies,
       countries, releaseResults, poster, backdrop, genres, alts, tmdb_id⟩

/-! ### MovieDict and MovieList (lines 227-280) -/

/-- MovieDict.__init__ (lines 260-280) applied to one JSON movie record
from the liststatus payload: build the dict via parse_liststatus (a
ValueError from int() on a non-numeric tmdbid escapes), then, when `meta`
is set, fetch movie_metadata for self['imdbId'] and enrich; a KeyError from
the missing tmdb_data key or from the enrichment is caught and leaves the
listing-only record. -/
def movieDict (src : Source) (fsys : Fs) (movie : JVal) (meta : Bool) :
    PyResult JVal :=
  (liftExc (toListStatus movie)).bind (fun ls =>
    match parse_liststatus fsys ls with
    | none => .exc .valueError
    | some d =>
      if meta then
        (get_data src "movie_metadata" ("imdbid=" ++ ls.imdbid)).bind
          (fun gv =>
            tryKey (gdSubscript gv "tmdb_data") (.ok (.jobj d)) (fun md =>
              match toMetadata md with
              | .error .keyError => .ok (.jobj d)
              | .error e => .exc e
              | .ok mt => .ok (.jobj (parse_movie_metadata d mt))))
      else .ok (.jobj d))

/-- The `for movie in liststatus:` loop body of MovieList.__init__
(lines 252-254): each record through MovieDict, in order; an exception
aborts the whole construction. -/
def buildMovies (src : Source) (fsys : Fs) (meta : Bool) :
    List JVal → PyResult (List JVal)
  | [] => .ok []
  | m :: rest =>
    (movieDict src fsys m meta).bind (fun d =>
      (buildMovies src fsys meta rest).bind (fun ds => .ok (d :: ds)))

/-- The id_string computation shared by MovieList.__init__ (lines 235-243)
and RequestHandler.get_movie (lines 559-564): an empty id selects the whole
catalog, a "tt"-prefixed id the imdbid scheme, anything else the tmdbid
scheme. -/
def movieIdString (movie_id : String) : String :=
  if movie_id = "" then ""
  else if movie_id.data.take 2 = ['t', 't'] then "imdbid=" ++ movie_id
  else "tmdbid=" ++ movie_id

/-- MovieList.__init__ (lines 230-254): fetch liststatus for the requested
movie(s).  When the payload has no 'movies' key (KeyError), the raw
liststatus result itself is appended to the list; otherwise each record of
the 'movies' value is mapped through MovieDict, with metadata enrichment
exactly when a movie id was given. -/
def movieList (src : Source) (fsys : Fs) (movie_id : String) :
    PyResult (List JVal) :=
  let do_metadata := movie_id ≠ ""
  let id_string := movieIdString movie_id
  (get_data src "liststatus" id_string).bind (fun gv =>
    tryKey (gdSubscript gv "movies") (.ok [gdVal gv]) (fun movies =>
      (liftExc (pyIter movies)).bind (fun items =>
        buildMovies src fsys do_metadata items)))

/-! ### RequestHandler (lines 478-748) -/

/-- The Python value a route handler hands back: the str produced by
json.dumps (kept symbolically with its JSON content), the literal False
respond returns for falsy content, or a raw dict returned without dumps
(the 405 branch of get_rootfolder). -/
inductive RespVal where
  | vdumped : JVal → RespVal
  | vbool : Bool → RespVal
  | vraw : JVal → RespVal

/-- Observable handler outcome: the last `response.status` assignment and
the returned value. -/
structure Resp where
  status : Nat
  body : RespVal

/-- RequestHandler.respond (lines 545-554): set the status; dump truthy
content to a JSON string, return False otherwise. -/
def respond (status : Nat) (content : JVal) : PyResult Resp :=
  .ok ⟨status, if jTruthy content then .vdumped content else .vbool false⟩

/-- RequestHandler.get_movie (lines 556-581): build the MovieList; an empty
list yields 404 with a minimal NotFound body; otherwise a single record
(movie id given) or the whole list (no id) is returned with 200. -/
def get_movie (src : Source) (fsys : Fs) (movie_id : String) :
    PyResult Resp :=
  (movieList src fsys movie_id).bind (fun lst =>
    match lst with
    | [] => respond 404 (.jobj [("message", .jstr "NotFound")])
    | m :: rest =>
      if movie_id ≠ "" then respond 200 m
      else respond 200 (.jarr (m :: rest)))

/-- The error_map dict of add_movie_error (lines 641-644); an unknown code
would raise KeyError (`none`). -/
def error_map (code : String) : Option String :=
  if code = "NotEmptyValidator" then some "'Tmdb Id' must not be empty."
  else if code = "MovieExistsValidator" then
    some "This movie has already been added"
  else none

/-- RequestHandler.add_movie_error (lines 638-658).  Note that the emitted
errorCode field is the hardcoded string "NotEmptyValidator" for every code;
the code passed in only selects the message and fills resourceName. -/
def add_movie_error (tmdb_id : Int) (code : String) : Option JVal :=
  (error_map code).map (fun msg =>
    .jarr [.jobj
      [("propertyName", .jstr "TmdbId"),
       ("errorMessage", .jstr msg),
       ("attemptedValue", .jnum tmdb_id),
       ("severity", .jstr "error"),
       ("errorCode", .jstr "NotEmptyValidator"),
       ("formattedMessageArguments", .jarr []),
       ("formattedMessagePlaceholderValues", .jobj
         [("propertyName", .jstr "Tmdb Id"),
          ("propertyValue", .jnum tmdb_id)]),
       ("resourceName", .jstr code)]])

/-- Python `'already exists' in data['error']` (line 625) for an arbitrary
JSON value on the right: substring test on a str, membership on a list,
key membership on a dict, TypeError otherwise. -/
def pyInJ (needle : String) : JVal → Except PyExc Bool
  | .jstr s => .ok (pyInStr needle s)
  | .jarr xs => .ok (xs.any (fun x =>
      match x with
      | .jstr t => t = needle
      | _ => false))
  | .jobj kvs => .ok (kvs.any (fun kv => kv.1 = needle))
  | _ => .error .typeError

/-- The body of add_movie after the id has been resolved (lines 616-636).
The source add request is forwarded, the record is re-fetched via
get_movie — whose respond() return value `response_data` is a JSON *string*
(or False), not a dict — and then:
* source failure with 'already exists' in the error: the code evaluates
  `response_data['tmdbId']`, which raises TypeError on a str;
* any other source failure: 400 with an error envelope;
* source success: `response_data['addOptions'] = request_data['addOptions']`
  first reads addOptions from the request (KeyError when absent), then
  raises TypeError assigning into the str. -/
def add_movie_rest (src : Source) (fsys : Fs) (rd : JVal)
    (movie_id : String) (id_string : String) : PyResult Resp :=
  (get_data src "addmovie" id_string).bind (fun data =>
    (get_movie src fsys movie_id).bind (fun _resp =>
      (liftExc (gdSubscript data "response")).bind (fun rv =>
        if jTruthy rv then
          (liftExc (jGet rd "addOptions")).bind (fun _ => .exc .typeError)
        else
          (liftExc (gdSubscript data "error")).bind (fun ev =>
            (liftExc (pyInJ "already exists" ev)).bind (fun exists? =>
              if exists? then .exc .typeError
              else respond 400 (.jobj [("error", ev)]))))))

/-- RequestHandler.add_movie (lines 599-636).  request.json is None for an
empty request body (bottle), and `None["tmdbId"]` raises TypeError — only a
KeyError from a present dict reaches the NotEmptyValidator branch.  A
tmdbId is passed through str(); an imdbId is concatenated into the query
string (TypeError when it is not a str). -/
def add_movie (src : Source) (fsys : Fs) (body : Option JVal) :
    PyResult Resp :=
  match body with
  | none => .exc .typeError
  | some rd =>
    tryKey (jGet rd "tmdbId")
      (tryKey (jGet rd "imdbId")
        (match add_movie_error 0 "NotEmptyValidator" with
         | some e => respond 400 e
         | none => .exc .keyError)
        (fun v =>
          match v with
          | .jstr s => add_movie_rest src fsys rd s ("imdbid=" ++ s)
          | _ => .exc .typeError))
      (fun v => add_movie_rest src fsys rd (pyStr v)
        ("tmdbid=" ++ pyStr v))

/-- The state WatcherHandler.__init__ (lines 98-118) leaves behind: the
configuration payload, the Postprocessing moverpath, and the rootfolder
derived from it by rsplit('/', 1)[0]. -/
structure Watcher where
  config : JVal
  path_template : String
  rootfolder : String

/-- WatcherHandler.__init__ (lines 112-118): fetch getconfig; a missing
'config' key is the caught KeyError that exits the process; then the
moverpath is read (KeyError/TypeError propagate — these happen at startup)
and the rootfolder is everything before its last '/'. -/
def watcherHandlerInit (src : Source) : PyResult Watcher :=
  (get_data src "getconfig" "").bind (fun gv =>
    tryKey (gdSubscript gv "config") (.exit 1) (fun cfg =>
      (liftExc (jGet cfg "Postprocessing")).bind (fun pp =>
        (liftExc (jGet pp "moverpath")).bind (fun mv =>
          match mv with
          | .jstr m => .ok ⟨cfg, m, rsplitOnceHead '/' m⟩
          | _ => .exc .typeError))))

/-- RequestHandler.get_rootfolder (lines 665-686): re-fetch getconfig; on a
falsy 'response' field, status 405 with a raw error dict; otherwise a
single-entry list with the stored rootfolder path, accessible True, the
total disk usage of the path when it is a directory (1e12 otherwise), and
id 1. -/
def get_rootfolder (src : Source) (fsys : Fs) (w : Watcher) :
    PyResult Resp :=
  (get_data src "getconfig" "").bind (fun gv =>
    (liftExc (gdSubscript gv "response")).bind (fun rv =>
      if jTruthy rv then
        let free := if fsys.isdir w.rootfolder then
            fsys.usageTotal w.rootfolder
          else 1000000000000
        respond 200 (.jarr [.jobj
          [("path", .jstr w.rootfolder),
           ("accessible", .jbool true),
           ("freeSpace", .jnum free),
           ("id", .jnum 1)]])
      else
        (liftExc (gdSubscript gv "error")).bind (fun ev =>
          .ok ⟨405, .vraw (.jobj [("error", ev)])⟩)))

/-- RequestHandler.log_unknown (lines 738-748): log and respond 404 with
content False. -/
def logUnknown (_path : String) : PyResult Resp :=
  respond 404 (.jbool false)

/-! ### The id_filter path matcher and GET routing (lines 489-521) -/

/-- All-digits test for the regex piece `\d*` (true on the empty list). -/
def chDigits (l : List Char) : Bool := l.all (fun ch => ch.isDigit)

/-- Language of the regex core `((tt)?\d*)?` of id_filter: an optional
"tt", then digits (the outer optional group adds nothing, since the inner
expression already matches the empty string).  Greedy "tt" with the
backtracking alternative is equivalent to this test: when the input starts
with "tt" the digits-only alternative fails anyway on the letter 't'. -/
def coreMatchL (l : List Char) : Bool :=
  if chStarts ['t', 't'] l then chDigits (l.drop 2) else chDigits l

/-- Full-match language of the id_filter regex `/?((tt)?\d*)?` against the
path remainder after "/api/v3/movie".  When the remainder starts with '/',
the branch that leaves the optional '/' unconsumed can never succeed ('/'
is neither 't' nor a digit), so consuming it is equivalent. -/
def idFilterMatchL (l : List Char) : Bool :=
  match l with
  | '/' :: rest => coreMatchL rest
  | _ => coreMatchL l

/-- The filter's to_id conversion (lines 515-516): strip the '/'
(match.replace('/', '')). -/
def toIdL (l : List Char) : List Char := l.filter (fun x => x ≠ '/')

/-- Where a GET request is routed. -/
inductive RouteTarget where
  | movie : String → RouteTarget
  | qualityProfileR : RouteTarget
  | rootfolderR : RouteTarget
  | systemStatus : RouteTarget
  | unknown : String → RouteTarget
  deriving DecidableEq

/-- GET dispatch over the route table of RequestHandler.__init__
(lines 491-506), in registration order: the movie route (the fixed piece
"/api/v3/movie" followed by an id_filter match of the remainder) first,
then the three literal GET routes, then the `/<path:path>` fallback, whose
handler receives the path without its leading '/'. -/
def dispatchGET (path : String) : RouteTarget :=
  let l := path.data
  let movieStem := "/api/v3/movie".data
  if chStarts movieStem l ∧ idFilterMatchL (l.drop 13) then
    .movie (String.mk (toIdL (l.drop 13)))
  else if path = "/api/v3/qualityProfile" then .qualityProfileR
  else if path = "/api/v3/rootfolder" then .rootfolderR
  else if path = "/api/v3/system/status" then .systemStatus
  else .unknown (String.mk (l.drop 1))

/-! ### QualityProfile (lines 165-224) -/

/-- One profile of the Quality.Profiles configuration mapping: the ordered
Sources mapping, each item a label together with its raw stored
[enabled-flag, id] pair (item_data[0] and item_data[1]). -/
structure ProfileData where
  sources : List (String × JVal × JVal)

/-- The res_map lookup (lines 198-205): dict.get with default 0. -/
def res_map (t : String) : ℚ :=
  if t = "sd" then 480
  else if t = "720p" then 720
  else if t = "1080p" then 1080
  else if t = "4k" then 2160
  else 0

/-- Lines 192-196: split the lowercased item label on the first '-' into
(source, resolution token); when there is no '-' the unpacking raises
ValueError and the caught branch uses the whole lowercased label as the
source and the sentinel token "0". -/
def splitSourceRes (item : String) : String × String :=
  let low := sLower item
  match chSplitFirst '-' low.data with
  | some p => (String.mk p.1, String.mk p.2)
  | none => (low, "0")

/-- QualityProfile.parse_single_quality (lines 182-224). -/
def parse_single_quality (name : String) (data : ProfileData)
    (profile_count : Nat) : JVal :=
  .jobj
    [("name", .jstr name),
     ("items", .jarr (data.sources.map (fun it =>
       let sr := splitSourceRes it.1
       .jobj
         [("quality", .jobj
            [("id", it.2.2),
             ("name", .jstr it.1),
             ("source", .jstr sr.1),
             ("resolution", .jnum (res_map sr.2)),
             ("modifier", .jstr "none")]),
          ("items", .jarr []),
          ("allowed", it.2.1)]))),
     ("minFormatScore", .jnum 0),
     ("cutoffFormatScore", .jnum 0),
     ("id", .jnum profile_count)]

/-- The profile loop of QualityProfile.__init__ (lines 174-180):
profile_count starts at 0 and is incremented before each
parse_single_quality call. -/
def qpGo : Nat → List (String × ProfileData) → List JVal
  | _, [] => []
  | c, p :: rest => parse_single_quality p.1 p.2 (c + 1) :: qpGo (c + 1) rest

/-- QualityProfile.__init__ (lines 168-180), over the Profiles mapping in
its insertion order. -/
def qualityProfile (profiles : List (String × ProfileData)) : List JVal :=
  qpGo 0 profiles

/-- The items list of a quality-profile record. -/
def qpItems (p : JVal) : List JVal :=
  match p with
  | .jobj kvs =>
    match dictGet kvs "items" with
    | some (.jarr xs) => xs
    | _ => []
  | _ => []

/-- The quality.name field of one quality item. -/
def qLabelOf (e : JVal) : Option JVal :=
  match e with
  | .jobj kvs =>
    match dictGet kvs "quality" with
    | some (.jobj q) => dictGet q "name"
    | _ => none
  | _ => none

/-- The quality.resolution field of one quality item. -/
def qResOf (e : JVal) : Option JVal :=
  match e with
  | .jobj kvs =>
    match dictGet kvs "quality" with
    | some (.jobj q) => dictGet q "resolution"
    | _ => none
  | _ => none

/-- The id field of a quality-profile record. -/
def jIdOf : JVal → Option JVal
  | .jobj kvs => dictGet kvs "id"
  | _ => none

/-! ### Concrete oracles used to evaluate the handlers -/

/-- A filesystem on which no path is a file or a directory. -/
def fsD : Fs := ⟨fun _ => false, fun _ => 0, fun _ => false, fun _ => 0⟩

/-- A backend whose every response body is non-JSON text. -/
def srcNone : Source := fun _ _ => .http "" none

/-- A backend whose addmovie answer reports that the movie already exists,
and whose liststatus answer is an empty movies array. -/
def srcDup : Source := fun mode _ =>
  if mode = "addmovie" then
    .http "" (some (.jobj
      [("response", .jbool false),
       ("error",
        .jstr "MovieExists: this movie already exists in the library")]))
  else if mode = "liststatus" then
    .http "" (some (.jobj [("movies", .jarr [])]))
  else .http "" none

/-- A backend whose addmovie answer reports success, and whose liststatus
answer is an empty movies array. -/
def srcAdd : Source := fun mode _ =>
  if mode = "addmovie" then
    .http "" (some (.jobj [("response", .jbool true)]))
  else if mode = "liststatus" then
    .http "" (some (.jobj [("movies", .jarr [])]))
  else .http "" none

/-- A backend whose liststatus answer is a no-match error envelope without
a movies key. -/
def srcNoMatch : Source := fun mode _ =>
  if mode = "liststatus" then
    .http "" (some (.jobj
      [("response", .jbool false), ("error", .jstr "No movies found.")]))
  else .http "" none

/-- A backend whose liststatus answer has an empty movies array. -/
def srcEmptyList : Source := fun mode _ =>
  if mode = "liststatus" then
    .http "" (some (.jobj [("movies", .jarr [])]))
  else .http "" none

/-- A backend whose getconfig answer carries a truthy response flag and a
Postprocessing moverpath of "/data/movies/\x7btitle\x7d". -/
def srcCfg : Source := fun mode _ =>
  if mode = "getconfig" then
    .http "" (some (.jobj
      [("response", .jbool true),
       ("config", .jobj [("Postprocessing", .jobj
          [("moverpath", .jstr "/data/movies/{title}")])])]))
  else .http "" none

/-- The watcher state that watcherHandlerInit builds from srcCfg. -/
def wCfg : Watcher :=
  ⟨.jobj [("Postprocessing",
           .jobj [("moverpath", .jstr "/data/movies/{title}")])],
   "/data/movies/{title}", "/data/movies"⟩

/-- A concrete listing record with a completed file on a three-level
path. -/
def lsW : ListStatus :=
  ⟨"603", "tt0133093", "The Matrix", "Matrix, The", "plot", 7, "2024-01-02",
   "/movies/The Matrix (1999)/thematrix.mkv", "1999", "", "1999-03-31",
   "R", ""⟩

/-- Modelled from the spec: the parent-of-parent directory of a path, i.e.
the path with its final two '/'-separated components removed (the claim for
the root-folder endpoint measures the emitted path against this). -/
def parentOfParent (s : String) : String :=
  rsplitOnceHead '/' (rsplitOnceHead '/' s)

/-! ### Helper lemmas -/

theorem chSplitFirst_eq_some (c : Char) :
    ∀ (l a b : List Char), chSplitFirst c l = some (a, b) →
      l = a ++ c :: b ∧ a.all (fun x => x ≠ c) := by
  intro l
  induction l with
  | nil => intro a b h; exact absurd h (by simp [chSplitFirst])
  | cons x xs ih =>
    intro a b h
    by_cases hx : x = c
    · rw [chSplitFirst, if_pos hx] at h
      have h' : ([], xs) = (a, b) := Option.some.inj h
      have h1 : ([] : List Char) = a := congrArg Prod.fst h'
      have h2 : xs = b := congrArg Prod.snd h'
      subst h1; subst h2; subst hx
      simp
    · rw [chSplitFirst, if_neg hx] at h
      cases hr : chSplitFirst c xs with
      | none => rw [hr] at h; exact absurd h (by simp)
      | some p =>
        rw [hr] at h
        have h' : (x :: p.1, p.2) = (a, b) := Option.some.inj h
        have h1 : x :: p.1 = a := congrArg Prod.fst h'
        have h2 : p.2 = b := congrArg Prod.snd h'
        obtain ⟨hl, hall⟩ := ih p.1 p.2 (by rw [hr])
        subst h1; subst h2
        constructor
        · simp [hl]
        · simp only [List.all_cons, Bool.and_eq_true, decide_eq_true_eq]
          exact ⟨hx, hall⟩

theorem chSplitFirst_isSome_of_mem (c : Char) :
    ∀ l : List Char, c ∈ l → (chSplitFirst c l).isSome = true := by
  intro l
  induction l with
  | nil => intro h; simp at h
  | cons x xs ih =>
    intro h
    by_cases hx : x = c
    · rw [chSplitFirst, if_pos hx]; rfl
    · rw [chSplitFirst, if_neg hx]
      rcases List.mem_cons.mp h with h1 | h2
      · exact absurd h1.symm hx
      · cases hr : chSplitFirst c xs with
        | none => rw [hr] at ih; simpa using ih h2
        | some p => simp [hr]

/-- Removing the final separator-component: when `c` occurs in the string,
rsplitOnceHead returns everything before the last `c`, and the removed
remainder contains no further `c`. -/
theorem rsplitOnceHead_decomp (c : Char) (m : String) (h : c ∈ m.data) :
    ∃ last : List Char,
      (rsplitOnceHead c m).data ++ c :: last = m.data ∧
      last.all (fun x => x ≠ c) := by
  have hr : c ∈ m.data.reverse := List.mem_reverse.mpr h
  cases hs : chSplitFirst c m.data.reverse with
  | none =>
    have := chSplitFirst_isSome_of_mem c m.data.reverse hr
    rw [hs] at this; simp at this
  | some p =>
    obtain ⟨hl, hall⟩ := chSplitFirst_eq_some c m.data.reverse p.1 p.2
      (by rw [hs])
    refine ⟨p.1.reverse, ?_, ?_⟩
    · have hm : m.data = p.2.reverse ++ c :: p.1.reverse := by
        have := congrArg List.reverse hl
        simpa [List.reverse_append] using this
      rw [rsplitOnceHead, hs]
      simpa using hm.symm
    · simp only [List.all_eq_true] at hall ⊢
      intro x hx
      exact hall x (List.mem_reverse.mp hx)

theorem decide_mk_empty (l : List Char) :
    decide (String.mk l = "") = l.isEmpty := by
  cases l with
  | nil => rfl
  | cons a t =>
    have hne : String.mk (a :: t) ≠ "" := by
      intro h
      have h2 : a :: t = ([] : List Char) := congrArg String.data h
      exact absurd h2 (by simp)
    simp [hne]

theorem dictGet_dictSet (d : List (String × JVal)) (k key : String)
    (v : JVal) :
    dictGet (dictSet d k v) key
      = if k = key then some v else dictGet d key := by
  induction d with
  | nil => simp [dictSet, dictGet]
  | cons kv rest ih =>
    obtain ⟨k', v'⟩ := kv
    by_cases hk : k' = k
    · subst hk
      by_cases hkey : k' = key
      · subst hkey; simp [dictSet, dictGet]
      · simp [dictSet, dictGet, hkey]
    · simp only [dictSet, if_neg hk, dictGet]
      rw [ih]
      by_cases hkey : k' = key
      · have hne : k ≠ key := fun hcontra => hk (by rw [hkey, hcontra])
        simp [hkey, hne]
      · simp [hkey]

theorem dictGet_plRest (ls : ListStatus) (tm : Int)
    (d : List (String × JVal)) (key : String)
    (h1 : "year" ≠ key) (h2 : "physicalRelease" ≠ key)
    (h3 : "inCinemas" ≠ key) (h4 : "certification" ≠ key)
    (h5 : "alternateTitles" ≠ key) :
    dictGet (plRest ls tm d) key = dictGet d key := by
  unfold plRest
  split_ifs <;> simp [dictGet_dictSet, h1, h2, h3, h4, h5]

theorem dictGet_plFin_path (fsys : Fs) (ls : ListStatus)
    (d : List (String × JVal)) :
    dictGet (plFin fsys ls d) "path"
      = some (.jstr (sJoinTake3 ls.finished_file)) := by
  unfold plFin
  split_ifs <;> simp [dictGet_dictSet]

theorem dictGet_plFin_folder (fsys : Fs) (ls : ListStatus)
    (d : List (String × JVal)) :
    dictGet (plFin fsys ls d) "folderName"
      = some (.jstr (sJoinTake3 ls.finished_file)) := by
  unfold plFin
  split_ifs <;> simp [dictGet_dictSet]

theorem dictGet_foldl_ne (key : String) :
    ∀ (kvs : List (String × JVal)) (d0 : List (String × JVal)),
      (∀ kv ∈ kvs, kv.1 ≠ key) →
      dictGet (kvs.foldl (fun acc kv => dictSet acc kv.1 kv.2) d0) key
        = dictGet d0 key := by
  intro kvs
  induction kvs with
  | nil => intro d0 _; rfl
  | cons kv rest ih =>
    intro d0 hne
    rw [List.foldl_cons, ih _ (fun x hx => hne x (List.mem_cons_of_mem _ hx)),
      dictGet_dictSet, if_neg (hne kv (List.mem_cons_self _ _))]

theorem dictGet_plData_path (ls : ListStatus) (tm : Int) :
    dictGet (plData ls tm) "path" = none := by
  unfold plData
  rw [dictGet_foldl_ne "path" _ []]
  · rfl
  · intro kv hkv
    simp only [List.mem_cons, List.not_mem_nil, or_false] at hkv
    rcases hkv with rfl|rfl|rfl|rfl|rfl|rfl|rfl|rfl|rfl|rfl|rfl|rfl|rfl|rfl|rfl|rfl|rfl <;>
      simp

theorem dictGet_plData_folder (ls : ListStatus) (tm : Int) :
    dictGet (plData ls tm) "folderName" = none := by
  unfold plData
  rw [dictGet_foldl_ne "folderName" _ []]
  · rfl
  · intro kv hkv
    simp only [List.mem_cons, List.not_mem_nil, or_false] at hkv
    rcases hkv with rfl|rfl|rfl|rfl|rfl|rfl|rfl|rfl|rfl|rfl|rfl|rfl|rfl|rfl|rfl|rfl|rfl <;>
      simp

theorem res_map_mem (t : String) :
    res_map t ∈ ([0, 480, 720, 1080, 2160] : List ℚ) := by
  unfold res_map
  split_ifs <;> simp

theorem res_map_zero_iff (t : String) :
    res_map t = 0 ↔ t ∉ (["sd", "720p", "1080p", "4k"] : List String) := by
  unfold res_map
  split_ifs with h1 h2 h3 h4 <;> simp_all

theorem qpGo_ids (ps : List (String × ProfileData)) : ∀ c : Nat,
    (qpGo c ps).map jIdOf
      = (List.range ps.length).map
          (fun i => some (JVal.jnum ((c + i + 1 : ℕ) : ℚ))) := by
  induction ps with
  | nil => intro c; rfl
  | cons p rest ih =>
    intro c
    have hhead : jIdOf (parse_single_quality p.1 p.2 (c + 1))
        = some (JVal.jnum ((c + 1 : ℕ) : ℚ)) := rfl
    simp only [qpGo, List.map_cons, List.length_cons,
      List.range_succ_eq_map, List.map_map, hhead, ih (c + 1)]
    have htail : List.map
        ((fun i => some (JVal.jnum ((c + i + 1 : ℕ) : ℚ))) ∘ Nat.succ)
        (List.range rest.length)
        = List.map (fun i => some (JVal.jnum ((c + 1 + i + 1 : ℕ) : ℚ)))
            (List.range rest.length) := by
      apply List.map_congr_left
      intro i _
      simp only [Function.comp_apply, Option.some.injEq, JVal.jnum.injEq]
      push_cast
      ring
    rw [htail, show c + 0 + 1 = c + 1 from by omega]

/-! ### Claim theorems -/

/-- C1.  The claim says a connection failure makes get_data return the
uniform failure envelope (response false, error message) without raising.
The code does build that envelope, but then runs `data = data.json()`
unconditionally; a dict has no attribute json, so an AttributeError escapes
to the caller on every connection failure and the envelope is never
returned.  This theorem evaluates get_data on a connection-failing
transport and shows the escaping exception. -/
theorem c1_get_data_conn_error_raises (src : Source) (mode get_vars : String)
    (h : src mode get_vars = FetchOutcome.conn_error) :
    get_data src mode get_vars = PyResult.exc PyExc.attributeError := by
  unfold get_data
  rw [h]

/-- Witness for c1_get_data_conn_error_raises at a concrete transport. -/
theorem c1_get_data_conn_error_raises_w :
    (fun (_ : String) (_ : String) => FetchOutcome.conn_error) "liststatus" ""
      = FetchOutcome.conn_error ∧
    get_data (fun _ _ => FetchOutcome.conn_error) "liststatus" ""
      = PyResult.exc PyExc.attributeError :=
  ⟨rfl, c1_get_data_conn_error_raises (fun _ _ => .conn_error)
    "liststatus" "" rfl⟩

/-- C2.  The claim says a duplicate-movie add returns 400 with a
MovieExistsValidator-style validation entry.  On that path the code
evaluates `response_data['tmdbId']`, but response_data is the JSON string
(or False) returned by respond() inside get_movie, so subscripting it
raises TypeError and no 400 validation body is ever produced; moreover,
add_movie_error hardcodes the errorCode field to "NotEmptyValidator" and
stores the passed code only in resourceName.  Evaluated here at the body
(tmdbId 603) against a backend whose addmovie answer contains
"already exists". -/
theorem c2_add_movie_duplicate_raises :
    add_movie srcDup fsD (some (.jobj [("tmdbId", .jnum 603)]))
      = PyResult.exc PyExc.typeError := rfl

/-- C4, counterexample.  When the source reports no match with an error
envelope that has no movies key, MovieList catches the KeyError and appends
the raw envelope, so the collection is non-empty and get_movie returns 200
carrying the source error envelope — not the 404 NotFound body the claim
requires for every no-match report. -/
theorem c4_counterexample_envelope_200 :
    get_movie srcNoMatch fsD "123"
      = PyResult.ok ⟨200, .vdumped (.jobj
          [("response", .jbool false),
           ("error", .jstr "No movies found.")])⟩ ∧
    get_movie srcNoMatch fsD "123"
      ≠ respond 404 (.jobj [("message", .jstr "NotFound")]) :=
  ⟨rfl, fun h => absurd (congrArg
    (fun r => match r with
      | PyResult.ok x => x.status
      | PyResult.exc _ => 0
      | PyResult.exit _ => 0) h) (by decide)⟩

/-- C4, amended: for every GET movie request whose fetched liststatus
payload contains a movies key mapping to an empty array, the router
responds 404 with exactly the body (message NotFound); when the source
signals no match through an envelope without a movies key, the envelope is
instead appended and returned with 200 (see the counterexample). -/
theorem c4_amended_empty_movies_404 (src : Source) (fsys : Fs)
    (movie_id body : String) (j : JVal)
    (h1 : src "liststatus" (movieIdString movie_id)
      = FetchOutcome.http body (some j))
    (h2 : jGet j "movies" = .ok (.jarr [])) :
    get_movie src fsys movie_id
      = PyResult.ok ⟨404, .vdumped (.jobj [("message", .jstr "NotFound")])⟩
    := by
  unfold get_movie movieList get_data
  dsimp only
  rw [h1]
  dsimp only [PyResult.bind, gdSubscript]
  rw [h2]
  rfl

/-- Witness for c4_amended_empty_movies_404 at a concrete backend. -/
theorem c4_amended_empty_movies_404_w :
    srcEmptyList "liststatus" (movieIdString "123")
      = FetchOutcome.http "" (some (.jobj [("movies", .jarr [])])) ∧
    jGet (.jobj [("movies", .jarr [])]) "movies" = .ok (.jarr []) ∧
    get_movie srcEmptyList fsD "123"
      = PyResult.ok ⟨404, .vdumped (.jobj [("message", .jstr "NotFound")])⟩
    :=
  ⟨rfl, rfl,
   c4_amended_empty_movies_404 srcEmptyList fsD "123" ""
     (.jobj [("movies", .jarr [])]) rfl rfl⟩

/-- C5, counterexample.  For a POST with a truly empty body, bottle's
request.json is None, and `request_data["tmdbId"]` raises TypeError (not
the KeyError the code catches), so the request fails with an exception
instead of the claimed 400 NotEmptyValidator response. -/
theorem c5_counterexample_empty_body_raises :
    add_movie srcNone fsD none = PyResult.exc PyExc.typeError := rfl

/-- C5, amended: for every add-movie request whose body is a JSON object
that supplies neither a tmdbId nor an imdbId key (in particular the empty
JSON object), the endpoint returns 400 with a validation-error array whose
single entry has errorCode NotEmptyValidator and attemptedValue 0; a
request with a truly empty body instead raises TypeError (see the
counterexample). -/
theorem c5_amended_missing_ids_400 (src : Source) (fsys : Fs)
    (d : List (String × JVal))
    (h1 : dictGet d "tmdbId" = none) (h2 : dictGet d "imdbId" = none) :
    add_movie src fsys (some (.jobj d))
      = PyResult.ok ⟨400, .vdumped (.jarr [.jobj
          [("propertyName", .jstr "TmdbId"),
           ("errorMessage", .jstr "'Tmdb Id' must not be empty."),
           ("attemptedValue", .jnum 0),
           ("severity", .jstr "error"),
           ("errorCode", .jstr "NotEmptyValidator"),
           ("formattedMessageArguments", .jarr []),
           ("formattedMessagePlaceholderValues", .jobj
             [("propertyName", .jstr "Tmdb Id"),
              ("propertyValue", .jnum 0)]),
           ("resourceName", .jstr "NotEmptyValidator")]])⟩ := by
  unfold add_movie
  dsimp only [jGet]
  rw [h1, h2]
  rfl

/-- Witness for c5_amended_missing_ids_400 at the empty JSON object. -/
theorem c5_amended_missing_ids_400_w :
    dictGet [] "tmdbId" = none ∧ dictGet [] "imdbId" = none ∧
    add_movie srcNone fsD (some (.jobj []))
      = PyResult.ok ⟨400, .vdumped (.jarr [.jobj
          [("propertyName", .jstr "TmdbId"),
           ("errorMessage", .jstr "'Tmdb Id' must not be empty."),
           ("attemptedValue", .jnum 0),
           ("severity", .jstr "error"),
           ("errorCode", .jstr "NotEmptyValidator"),
           ("formattedMessageArguments", .jarr []),
           ("formattedMessagePlaceholderValues", .jobj
             [("propertyName", .jstr "Tmdb Id"),
              ("propertyValue", .jnum 0)]),
           ("resourceName", .jstr "NotEmptyValidator")]])⟩ :=
  ⟨rfl, rfl, c5_amended_missing_ids_400 srcNone fsD [] rfl rfl⟩

/-- C6, counterexample.  The code derives the root folder with one
rsplit('/', 1)[0], which removes only the final '/'-component of the
moverpath (its parent), not two components (its parent-of-parent): for the
moverpath "/data/movies/\x7btitle\x7d" the endpoint emits the path
"/data/movies", while the parent-of-parent is "/data". -/
theorem c6_counterexample_parent_not_grandparent :
    watcherHandlerInit srcCfg = PyResult.ok wCfg ∧
    get_rootfolder srcCfg fsD wCfg
      = PyResult.ok ⟨200, .vdumped (.jarr [.jobj
          [("path", .jstr "/data/movies"),
           ("accessible", .jbool true),
           ("freeSpace", .jnum 1000000000000),
           ("id", .jnum 1)]])⟩ ∧
    parentOfParent "/data/movies/{title}" = "/data" ∧
    ("/data/movies" : String) ≠ "/data" :=
  ⟨rfl, rfl, rfl, by decide⟩

/-- C6, amended: the root-folder endpoint returns a single-entry list whose
record's path is the source's configured moverpath with its final
'/'-separated component removed — the moverpath's parent directory, one
level up, not two.  The final conjunct certifies the "final component
removed" reading: the emitted path extends to the moverpath by one '/' and
a remainder free of '/'. -/
theorem c6_amended_rootfolder_is_parent (src : Source) (fsys : Fs)
    (body : String) (j cfg pp rv : JVal) (m : String)
    (h1 : src "getconfig" "" = FetchOutcome.http body (some j))
    (h2 : jGet j "config" = .ok cfg)
    (h3 : jGet cfg "Postprocessing" = .ok pp)
    (h4 : jGet pp "moverpath" = .ok (.jstr m))
    (h5 : jGet j "response" = .ok rv)
    (h6 : jTruthy rv = true) :
    watcherHandlerInit src = PyResult.ok ⟨cfg, m, rsplitOnceHead '/' m⟩ ∧
    get_rootfolder src fsys ⟨cfg, m, rsplitOnceHead '/' m⟩
      = PyResult.ok ⟨200, .vdumped (.jarr [.jobj
          [("path", .jstr (rsplitOnceHead '/' m)),
           ("accessible", .jbool true),
           ("freeSpace", .jnum
             ((if fsys.isdir (rsplitOnceHead '/' m) then
                 fsys.usageTotal (rsplitOnceHead '/' m)
               else 1000000000000 : ℕ) : ℚ)),
           ("id", .jnum 1)]])⟩ ∧
    ('/' ∈ m.data → ∃ last : List Char,
      (rsplitOnceHead '/' m).data ++ '/' :: last = m.data ∧
      last.all (fun x => x ≠ '/')) := by
  refine ⟨?_, ?_, rsplitOnceHead_decomp '/' m⟩
  · unfold watcherHandlerInit get_data
    rw [h1]
    simp only [PyResult.bind, gdSubscript, tryKey, liftExc, h2, h3, h4]
  · unfold get_rootfolder get_data
    rw [h1]
    simp only [PyResult.bind, gdSubscript, liftExc, h5]
    rw [if_pos h6]
    rfl

/-- Witness for c6_amended_rootfolder_is_parent at a concrete backend. -/
theorem c6_amended_rootfolder_is_parent_w :
    srcCfg "getconfig" "" = FetchOutcome.http ""
      (some (.jobj
        [("response", .jbool true),
         ("config", .jobj [("Postprocessing", .jobj
            [("moverpath", .jstr "/data/movies/{title}")])])])) ∧
    jTruthy (.jbool true) = true ∧
    (watcherHandlerInit srcCfg
        = PyResult.ok ⟨.jobj [("Postprocessing", .jobj
            [("moverpath", .jstr "/data/movies/{title}")])],
          "/data/movies/{title}",
          rsplitOnceHead '/' "/data/movies/{title}"⟩ ∧
      get_rootfolder srcCfg fsD
        ⟨.jobj [("Postprocessing", .jobj
            [("moverpath", .jstr "/data/movies/{title}")])],
          "/data/movies/{title}",
          rsplitOnceHead '/' "/data/movies/{title}"⟩
        = PyResult.ok ⟨200, .vdumped (.jarr [.jobj
            [("path", .jstr (rsplitOnceHead '/' "/data/movies/{title}")),
             ("accessible", .jbool true),
             ("freeSpace", .jnum
               ((if fsD.isdir (rsplitOnceHead '/' "/data/movies/{title}")
                 then fsD.usageTotal
                   (rsplitOnceHead '/' "/data/movies/{title}")
                 else 1000000000000 : ℕ) : ℚ)),
             ("id", .jnum 1)]])⟩ ∧
      ('/' ∈ ("/data/movies/{title}" : String).data →
        ∃ last : List Char,
          (rsplitOnceHead '/' "/data/movies/{title}").data ++ '/' :: last
            = ("/data/movies/{title}" : String).data ∧
          last.all (fun x => x ≠ '/'))) :=
  ⟨rfl, rfl,
   c6_amended_rootfolder_is_parent srcCfg fsD ""
     (.jobj
       [("response", .jbool true),
        ("config", .jobj [("Postprocessing", .jobj
           [("moverpath", .jstr "/data/movies/{title}")])])])
     (.jobj [("Postprocessing", .jobj
        [("moverpath", .jstr "/data/movies/{title}")])])
     (.jobj [("moverpath", .jstr "/data/movies/{title}")])
     (.jbool true) "/data/movies/{title}" rfl rfl rfl rfl rfl rfl⟩

/-- C7.  The movie-id path matcher and routing: the paths with segment ""
and "123" both dispatch to the get_movie handler (empty listing all
movies via an empty id string, numeric via the tmdbid scheme), "tt123"
dispatches there with the imdbid scheme, and "abc" does not match the
movie route and falls through to the unknown-path handler, which responds
404.  The final conjunct characterizes the matcher exactly: a (slash-
preceded) segment matches iff it is empty, all digits, or "tt" followed by
digits. -/
theorem c7_id_filter_routing :
    dispatchGET "/api/v3/movie" = RouteTarget.movie "" ∧
    dispatchGET "/api/v3/movie/123" = RouteTarget.movie "123" ∧
    dispatchGET "/api/v3/movie/tt123" = RouteTarget.movie "tt123" ∧
    dispatchGET "/api/v3/movie/abc" = RouteTarget.unknown "api/v3/movie/abc" ∧
    movieIdString "" = "" ∧
    movieIdString "123" = "tmdbid=123" ∧
    movieIdString "tt123" = "imdbid=tt123" ∧
    logUnknown "api/v3/movie/abc" = PyResult.ok ⟨404, RespVal.vbool false⟩ ∧
    (∀ seg : String, idFilterMatchL ('/' :: seg.data) = true ↔
      (seg = "" ∨ chDigits seg.data = true ∨
       (chStarts ['t', 't'] seg.data = true ∧
        chDigits (seg.data.drop 2) = true))) := by
  refine ⟨rfl, rfl, rfl, rfl, rfl, rfl, rfl, rfl, ?_⟩
  intro seg
  obtain ⟨l⟩ := seg
  have hshow : idFilterMatchL ('/' :: (String.mk l).data) = coreMatchL l :=
    rfl
  rw [hshow]
  have hempty : (String.mk l = "") ↔ l = [] := by
    constructor
    · intro h; exact congrArg String.data h
    · intro h; rw [h]
  rw [hempty]
  cases l with
  | nil => simp [coreMatchL, chStarts, chDigits]
  | cons a l1 =>
    cases l1 with
    | nil => simp [coreMatchL, chStarts, chDigits]
    | cons b l2 =>
      by_cases ha : 't' = a
      · by_cases hb : 't' = b
        · subst ha; subst hb
          have hd : ('t' : Char).isDigit = false := rfl
          show (chDigits l2 = true) ↔
            ('t' :: 't' :: l2 = [] ∨ chDigits ('t' :: 't' :: l2) = true ∨
             ((true : Bool) = true ∧ chDigits l2 = true))
          simp [chDigits, hd]
        · simp [coreMatchL, chStarts, chDigits, ha, hb]
      · simp [coreMatchL, chStarts, chDigits, ha]

/-- C8.  Every quality item emitted by parse_single_quality carries a
resolution drawn from (0, 480, 720, 1080, 2160), equal to res_map applied
to the token after the first '-' of the lowercased label (the sentinel
token "0" when there is no '-'), and the resolution is 0 exactly when that
token is none of sd / 720p / 1080p / 4k, which map to 480 / 720 / 1080 /
2160 respectively. -/
theorem c8_resolution_table (name : String) (data : ProfileData) (pc : Nat)
    (e : JVal) (he : e ∈ qpItems (parse_single_quality name data pc)) :
    ∃ label : String,
      qLabelOf e = some (.jstr label) ∧
      qResOf e = some (.jnum (res_map (splitSourceRes label).2)) ∧
      res_map (splitSourceRes label).2 ∈ ([0, 480, 720, 1080, 2160] : List ℚ) ∧
      ((res_map (splitSourceRes label).2 = 0) ↔
        (splitSourceRes label).2 ∉ (["sd", "720p", "1080p", "4k"] : List String)) ∧
      res_map "sd" = 480 ∧ res_map "720p" = 720 ∧
      res_map "1080p" = 1080 ∧ res_map "4k" = 2160 := by
  have hitems : qpItems (parse_single_quality name data pc)
      = data.sources.map (fun it =>
          JVal.jobj
            [("quality", .jobj
               [("id", it.2.2),
                ("name", .jstr it.1),
                ("source", .jstr (splitSourceRes it.1).1),
                ("resolution", .jnum (res_map (splitSourceRes it.1).2)),
                ("modifier", .jstr "none")]),
             ("items", .jarr []),
             ("allowed", it.2.1)]) := rfl
  rw [hitems] at he
  obtain ⟨it, _, rfl⟩ := List.mem_map.mp he
  exact ⟨it.1, rfl, rfl, res_map_mem _, res_map_zero_iff _,
    rfl, rfl, rfl, rfl⟩

/-- Witness for c8_resolution_table at a concrete single-item profile. -/
theorem c8_resolution_table_w :
    (JVal.jobj
      [("quality", .jobj
         [("id", .jnum 5),
          ("name", .jstr "BluRay-1080p"),
          ("source", .jstr "bluray"),
          ("resolution", .jnum 1080),
          ("modifier", .jstr "none")]),
       ("items", .jarr []),
       ("allowed", .jbool true)])
      ∈ qpItems (parse_single_quality "Default"
          ⟨[("BluRay-1080p", .jbool true, .jnum 5)]⟩ 1) ∧
    (∃ label : String,
      qLabelOf (JVal.jobj
        [("quality", .jobj
           [("id", .jnum 5),
            ("name", .jstr "BluRay-1080p"),
            ("source", .jstr "bluray"),
            ("resolution", .jnum 1080),
            ("modifier", .jstr "none")]),
         ("items", .jarr []),
         ("allowed", .jbool true)]) = some (.jstr label) ∧
      qResOf (JVal.jobj
        [("quality", .jobj
           [("id", .jnum 5),
            ("name", .jstr "BluRay-1080p"),
            ("source", .jstr "bluray"),
            ("resolution", .jnum 1080),
            ("modifier", .jstr "none")]),
         ("items", .jarr []),
         ("allowed", .jbool true)])
        = some (.jnum (res_map (splitSourceRes label).2)) ∧
      res_map (splitSourceRes label).2 ∈ ([0, 480, 720, 1080, 2160] : List ℚ) ∧
      ((res_map (splitSourceRes label).2 = 0) ↔
        (splitSourceRes label).2 ∉ (["sd", "720p", "1080p", "4k"] : List String)) ∧
      res_map "sd" = 480 ∧ res_map "720p" = 720 ∧
      res_map "1080p" = 1080 ∧ res_map "4k" = 2160) :=
  ⟨List.mem_cons_self _ _,
   c8_resolution_table "Default" ⟨[("BluRay-1080p", .jbool true, .jnum 5)]⟩ 1
     _ (List.mem_cons_self _ _)⟩

/-- C9.  The ids of the quality-profile records are exactly 1, 2, 3, … with
no gaps, assigned in the enumeration order of the source configuration's
Profiles mapping. -/
theorem c9_profile_ids (ps : List (String × ProfileData)) :
    (qualityProfile ps).map jIdOf
      = (List.range ps.length).map
          (fun i => some (JVal.jnum ((i + 1 : ℕ) : ℚ))) := by
  have h := qpGo_ids ps 0
  simpa using h

/-- C10.  A movie record built from a listing record with a non-empty
completed-file path has both path and folderName present and equal to the
join of the first three '/'-separated segments of that path; with an empty
completed-file path, neither key is present. -/
theorem c10_path_folder (fsys : Fs) (ls : ListStatus)
    (d : List (String × JVal))
    (h : parse_liststatus fsys ls = some d) :
    (ls.finished_file ≠ "" →
      dictGet d "path" = some (.jstr (sJoinTake3 ls.finished_file)) ∧
      dictGet d "folderName" = some (.jstr (sJoinTake3 ls.finished_file))) ∧
    (ls.finished_file = "" →
      dictGet d "path" = none ∧ dictGet d "folderName" = none) := by
  cases hm : pyInt? ls.tmdbid with
  | none =>
    unfold parse_liststatus at h
    rw [hm] at h
    exact absurd h (by simp)
  | some tm =>
    unfold parse_liststatus at h
    rw [hm] at h
    have hd := Option.some.inj h
    subst hd
    constructor
    · intro hf
      rw [if_neg hf]
      constructor
      · rw [dictGet_plRest _ _ _ _ (by decide) (by decide) (by decide)
          (by decide) (by decide), dictGet_plFin_path]
      · rw [dictGet_plRest _ _ _ _ (by decide) (by decide) (by decide)
          (by decide) (by decide), dictGet_plFin_folder]
    · intro hf
      rw [if_pos hf]
      constructor
      · rw [dictGet_plRest _ _ _ _ (by decide) (by decide) (by decide)
          (by decide) (by decide), dictGet_plData_path]
      · rw [dictGet_plRest _ _ _ _ (by decide) (by decide) (by decide)
          (by decide) (by decide), dictGet_plData_folder]

/-- Witness for c10_path_folder at a concrete listing record. -/
theorem c10_path_folder_w :
    ∃ d, parse_liststatus fsD lsW = some d ∧
      ((lsW.finished_file ≠ "" →
        dictGet d "path" = some (.jstr (sJoinTake3 lsW.finished_file)) ∧
        dictGet d "folderName"
          = some (.jstr (sJoinTake3 lsW.finished_file))) ∧
       (lsW.finished_file = "" →
        dictGet d "path" = none ∧ dictGet d "folderName" = none)) :=
  ⟨_, rfl, c10_path_folder fsD lsW _ rfl⟩

/-- C3.  The claim says a successful add with addOptions (searchNow true)
returns 201 with the re-fetched record carrying those addOptions.  The code
executes `response_data['addOptions'] = request_data['addOptions']`, but
response_data is the JSON string (or False) returned by respond() inside
get_movie; item assignment into a str raises TypeError and no 201 response
is ever produced.  Evaluated at exactly the claim's body against a backend
whose addmovie answer reports success. -/
theorem c3_add_movie_success_raises :
    add_movie srcAdd fsD (some (.jobj
      [("tmdbId", .jnum 603),
       ("addOptions", .jobj [("searchNow", .jbool true)])]))
      = PyResult.exc PyExc.typeError := rfl
